import Mathlib

/-!
Verification of the bounded shared-memory CSP channel core
(pypychannel: Proto, CspSendPort, CspRecvQueue, CspRecvPort, CspSelector,
PyPyChannel) against its natural-language specification.

The Python source is shallowly embedded: tensors are records of shape,
dtype and flat integer data; the numpy elementwise slot assignment is
modelled as storing the tensor values (dtype conversion is abstracted as
value-preserving); blocking primitives are modelled by explicit
"would block" outcomes or by guarded transitions; every operation that can
raise is modelled with an explicit error result.
-/

namespace PyPyChannelModel

/-- A numpy dtype, abstracted to an identifying tag plus its item size in
bytes (the only two properties the channel core uses). -/
structure DType where
  id : Nat
  itemsize : Nat
deriving Repr, DecidableEq

/-- A dense tensor: its shape, its dtype, and its flattened element data.
Element values are abstracted as integers. -/
structure Tensor where
  shape : List Nat
  dtype : DType
  data : List Int
deriving Repr, DecidableEq

/-- Default tensor used only as a getD fallback. -/
def tZ : Tensor := { shape := [], dtype := { id := 0, itemsize := 0 }, data := [] }

/-! ## CspRecvQueue.get (pypychannel.py lines 138-164)

The queue contents are a list of tokens (the source enqueues the integer 0
as its opaque token).  The get call is evaluated against a static queue (no
concurrent producer), so a wait with no deadline on an empty queue is the
blocked outcome, and a timed wait on an empty queue expires to the Empty
error.  The timeout is an abstract number; only its sign and presence
matter to the control flow being verified. -/

/-- Outcome of one CspRecvQueue.get call: the returned item together with
the queue contents after the call, or the raised error (Empty, ValueError),
or blocking forever. -/
inductive GetOutcome (α : Type) where
  | ok (item : α) (rest : List α)
  | emptyErr (rest : List α)
  | badTimeout (rest : List α)
  | blocked (rest : List α)
deriving Repr, DecidableEq

/-- CspRecvQueue.get, following the source's branch order exactly:
the block flag is tested first; with block set, a missing timeout waits,
a negative timeout raises ValueError (even on a non-empty queue), and a
non-negative timeout waits until expiry.  With block unset the timeout is
never examined.  When an item is available, peek returns the head without
removing it, otherwise the head is dequeued. -/
def CspRecvQueue.get (q : List Nat) (block : Bool) (timeout : Option Int)
    (peek : Bool) : GetOutcome Nat :=
  if !block then
    match q with
    | [] => .emptyErr q
    | x :: rest => if peek then .ok x q else .ok x rest
  else
    match timeout with
    | none =>
      match q with
      | [] => .blocked q
      | x :: rest => if peek then .ok x q else .ok x rest
    | some t =>
      if t < 0 then .badTimeout q
      else
        match q with
        | [] => .emptyErr q
        | x :: rest => if peek then .ok x q else .ok x rest

/-! ## Proto and the PyPyChannel factory (pypychannel.py lines 23-27, 317-342) -/

/-- Proto: the per-slot payload descriptor.  In the source it is a plain
dataclass: any field values are accepted, no validation runs. -/
structure Proto where
  shape : List Nat
  dtype : DType
  nbytes : Nat
deriving Repr, DecidableEq

/-- The product of a shape list, as np.prod computes it (empty product 1). -/
def listProd (l : List Nat) : Nat := l.foldl (fun a b => a * b) 1

/-- The state PyPyChannel.__init__ builds: the shared-memory request size,
the Proto handed to each port, and the per-port copies of its fields
(CspSendPort.__init__ and CspRecvPort.__init__ copy shape, dtype, nbytes
out of the proto). -/
structure PyPyChannelM where
  shmBytes : Nat
  srcProto : Proto
  dstProto : Proto
  size : Nat
deriving Repr, DecidableEq

/-- PyPyChannel.__init__: computes nbytes as product(shape) times the dtype
item size, requests nbytes times size bytes of shared memory, builds one
Proto and hands it to both ports.  No validation of size or nbytes is
performed and no error path exists. -/
def PyPyChannelM.new (shape : List Nat) (dtype : DType) (size : Nat) :
    PyPyChannelM :=
  let nbytes := listProd shape * dtype.itemsize
  { shmBytes := nbytes * size
    srcProto := { shape := shape, dtype := dtype, nbytes := nbytes }
    dstProto := { shape := shape, dtype := dtype, nbytes := nbytes }
    size := size }

/-! ## Port lifecycle: start, and send/recv before start
(pypychannel.py lines 79-95, 118-127, 216-232, 261-270)

Before start, the sender's internal semaphore field and the receiver's
queue field hold None; send and recv dereference them and so raise
AttributeError.  start unconditionally rebuilds the ring view, installs a
fresh semaphore or queue, and spawns one more drain thread; it has no
failure path and no started-already check.  The threads field counts the
spawned drain threads (thread handles are opaque). -/

/-- Lifecycle state of a CspSendPort. -/
structure SendPortL where
  shape : List Nat
  dtype : DType
  size : Nat
  semaphore : Option Nat
  arrayLen : Nat
  threads : Nat
  idx : Nat
deriving Repr, DecidableEq

/-- CspSendPort as constructed (before start): no ring view, no semaphore,
no thread. -/
def SendPortL.new (shape : List Nat) (dtype : DType) (size : Nat) : SendPortL :=
  { shape := shape, dtype := dtype, size := size, semaphore := none
    arrayLen := 0, threads := 0, idx := 0 }

/-- CspSendPort.start: materialise the size ring views, install a fresh
bounded semaphore holding size permits, spawn one ack-drain thread.  Runs
the same way on a started port. -/
def SendPortL.start (p : SendPortL) : SendPortL :=
  { p with arrayLen := p.size, semaphore := some p.size,
           threads := p.threads + 1 }

/-- CspSendPort.start wrapped with an explicit error channel: the source's
start contains no raise and no started-already check, so it always
returns normally. -/
def SendPortL.startE (p : SendPortL) : Except String SendPortL :=
  Except.ok p.start

/-- Outcome of CspSendPort.send on a lifecycle state. -/
inductive LSendRes where
  | shapeErr
  | attrErr
  | wouldBlock
  | ok (p : SendPortL)
deriving Repr, DecidableEq

/-- CspSendPort.send on a lifecycle state: the shape assertion runs first;
then the semaphore is dereferenced (AttributeError when start has not
run); acquiring with no permit blocks; otherwise one permit is consumed
and idx advances modulo size. -/
def SendPortL.send (p : SendPortL) (data : Tensor) : LSendRes :=
  if data.shape ≠ p.shape then .shapeErr
  else
    match p.semaphore with
    | none => .attrErr
    | some 0 => .wouldBlock
    | some (k + 1) =>
      .ok { p with semaphore := some k, idx := (p.idx + 1) % p.size }

/-- Lifecycle state of a CspRecvPort. -/
structure RecvPortL where
  shape : List Nat
  dtype : DType
  size : Nat
  queue : Option (List Nat)
  arrayLen : Nat
  threads : Nat
  idx : Nat
deriving Repr, DecidableEq

/-- CspRecvPort as constructed (before start): no ring view, no queue,
no thread. -/
def RecvPortL.new (shape : List Nat) (dtype : DType) (size : Nat) : RecvPortL :=
  { shape := shape, dtype := dtype, size := size, queue := none
    arrayLen := 0, threads := 0, idx := 0 }

/-- CspRecvPort.start: materialise the ring views, install a fresh empty
queue, spawn one req-drain thread; no started-already check. -/
def RecvPortL.start (p : RecvPortL) : RecvPortL :=
  { p with arrayLen := p.size, queue := some [], threads := p.threads + 1 }

/-- Outcome of CspRecvPort.recv on a lifecycle state. -/
inductive LRecvRes where
  | attrErr
  | wouldBlock
  | ok (p : RecvPortL)
deriving Repr, DecidableEq

/-- CspRecvPort.recv on a lifecycle state: the queue is dereferenced first
(AttributeError when start has not run); a blocking get on an empty queue
blocks; otherwise one token is dequeued and idx advances modulo size. -/
def RecvPortL.recv (p : RecvPortL) : LRecvRes :=
  match p.queue with
  | none => .attrErr
  | some [] => .wouldBlock
  | some (_ :: rest) =>
    .ok { p with queue := some rest, idx := (p.idx + 1) % p.size }

/-! ## The started channel as a transition system
(pypychannel.py lines 97-131, 234-270)

A started channel of capacity size is one CspSendPort and one CspRecvPort
sharing the ring, the req semaphore and the ack semaphore.  The four
atomic activities are the application's send call, the receiver's
req-drain loop body, the application's recv call, and the sender's
ack-drain loop body.  The state carries, besides the code's fields, two
history lists sentL and recvL recording the tensors passed to successful
send calls and returned by successful recv calls; they are ghost fields
used only to state properties. -/

/-- State of a started channel: ring buffer contents, the two slot
indices, the sender's internal permit count, the two cross-process
semaphore counts, the receiver's token-queue length (tokens are opaque),
and the two history lists. -/
structure ChannelState where
  size : Nat
  shape : List Nat
  dtype : DType
  buf : List Tensor
  sendIdx : Nat
  recvIdx : Nat
  permits : Nat
  req : Nat
  queueLen : Nat
  ack : Nat
  sentL : List Tensor
  recvL : List Tensor
deriving Repr, DecidableEq

/-- The channel right after both ports started: ring of size zero-slots,
both indices 0, all size permits available, both semaphores 0, empty
queue, empty history. -/
def ChannelState.started (shape : List Nat) (dtype : DType) (size : Nat) :
    ChannelState :=
  { size := size, shape := shape, dtype := dtype
    buf := List.replicate size tZ
    sendIdx := 0, recvIdx := 0
    permits := size, req := 0, queueLen := 0, ack := 0
    sentL := [], recvL := [] }

/-- CspSendPort.probe: tries a non-blocking acquire of the internal
semaphore and releases it again on success, so it reports whether a permit
is available without consuming one. -/
def CspSendPort.probe (s : ChannelState) : Bool := 0 < s.permits

/-- CspRecvPort.probe: whether the token queue is non-empty. -/
def CspRecvPort.probe (s : ChannelState) : Bool := 0 < s.queueLen

/-- Result of one CspSendPort.send call. -/
inductive SendResult where
  | error (s : ChannelState)
  | blocked (s : ChannelState)
  | ok (s : ChannelState)
deriving Repr, DecidableEq

/-- CspSendPort.send (lines 118-127): the shape assertion runs first and
compares shapes only — the dtype is never examined; on mismatch
AssertionError is raised with no other effect.  Then one permit is
acquired (blocking while none is available), the tensor is written into
slot sendIdx, sendIdx advances modulo size, and req is released once. -/
def sendCall (s : ChannelState) (data : Tensor) : SendResult :=
  if data.shape ≠ s.shape then .error s
  else if s.permits = 0 then .blocked s
  else .ok { s with buf := s.buf.set s.sendIdx data
                    sendIdx := (s.sendIdx + 1) % s.size
                    permits := s.permits - 1
                    req := s.req + 1
                    sentL := s.sentL ++ [data] }

/-- CspRecvPort.recv (lines 261-270): blocks until a token is available,
dequeues it, copies slot recvIdx out, advances recvIdx modulo size,
releases ack once, and returns the copy. -/
def recvCall (s : ChannelState) : Option (Tensor × ChannelState) :=
  if s.queueLen = 0 then none
  else
    some (s.buf.getD s.recvIdx tZ,
      { s with queueLen := s.queueLen - 1
               recvIdx := (s.recvIdx + 1) % s.size
               ack := s.ack + 1
               recvL := s.recvL ++ [s.buf.getD s.recvIdx tZ] })

/-- CspRecvPort.peek (lines 252-259): blocks until a token is available
but leaves the queue untouched, copies slot recvIdx out and returns the
copy; recvIdx does not advance and ack is not released. -/
def peekCall (s : ChannelState) : Option Tensor :=
  if s.queueLen = 0 then none else some (s.buf.getD s.recvIdx tZ)

/-- One iteration of the receiver's req-drain loop (lines 234-243): one
req unit is consumed and one token is enqueued. -/
def reqDrainFn (s : ChannelState) : Option ChannelState :=
  if s.req = 0 then none
  else some { s with req := s.req - 1, queueLen := s.queueLen + 1 }

/-- One iteration of the sender's ack-drain loop (lines 97-106): one ack
unit is consumed and one internal permit is released. -/
def ackDrainFn (s : ChannelState) : Option ChannelState :=
  if s.ack = 0 then none
  else some { s with ack := s.ack - 1, permits := s.permits + 1 }

/-- Label of one atomic channel activity. -/
inductive Label where
  | send (x : Tensor)
  | reqDrain
  | recv
  | ackDrain
deriving Repr, DecidableEq

/-- One atomic step of the channel; none when the activity would block or
fail at this state. -/
def stepFn (s : ChannelState) : Label → Option ChannelState
  | .send x =>
    match sendCall s x with
    | .ok s' => some s'
    | _ => none
  | .reqDrain => reqDrainFn s
  | .recv => (recvCall s).map Prod.snd
  | .ackDrain => ackDrainFn s

/-- Run a list of labels from a state. -/
def run (s : ChannelState) : List Label → Option ChannelState
  | [] => some s
  | l :: ls =>
    match stepFn s l with
    | none => none
    | some s' => run s' ls

/-! ## The channel invariant -/

/-- Invariant of every reachable started-channel state: the ring has size
slots; each slot index is the corresponding history length modulo size;
permits, in-transit req units, queued tokens and in-transit ack units sum
to size; the undelivered-message count equals the req units plus queued
tokens; the received history is the sent history's initial segment; and
every sent-but-unreceived tensor sits in the ring at its slot. -/
def Inv (s : ChannelState) : Prop :=
  s.buf.length = s.size ∧
  s.sendIdx = s.sentL.length % s.size ∧
  s.recvIdx = s.recvL.length % s.size ∧
  s.permits + s.req + s.queueLen + s.ack = s.size ∧
  s.recvL.length + s.req + s.queueLen = s.sentL.length ∧
  s.recvL = s.sentL.take s.recvL.length ∧
  (∀ i, s.recvL.length ≤ i → i < s.sentL.length →
    s.buf.getD (i % s.size) tZ = s.sentL.getD i tZ)

theorem inv_started (shape : List Nat) (dtype : DType) (size : Nat) :
    Inv (ChannelState.started shape dtype size) := by
  refine ⟨?_, ?_, ?_, ?_, ?_, ?_, ?_⟩ <;>
    simp [ChannelState.started, Inv]

/-- Arithmetic helper: adding one then reducing modulo n commutes with a
prior reduction. -/
theorem mod_add_one_mod (a n : Nat) : (a % n + 1) % n = (a + 1) % n := by
  conv_rhs => rw [Nat.add_mod a 1 n]
  conv_lhs => rw [Nat.add_mod (a % n) 1 n]
  rw [Nat.mod_mod_of_dvd a (dvd_refl n)]

/-- Arithmetic helper: two numbers less than n apart (and distinct) have
distinct residues modulo n. -/
theorem mod_ne_of_between (a b n : Nat) (hab : a < b) (hsub : b - a < n) :
    a % n ≠ b % n := by
  intro h
  have hd : 0 < b - a := Nat.sub_pos_of_lt hab
  have hb : b = a + (b - a) := by omega
  rw [hb, Nat.add_mod] at h
  rw [Nat.mod_eq_of_lt hsub] at h
  have hn : 0 < n := by omega
  have hr : a % n < n := Nat.mod_lt _ hn
  rcases Nat.lt_or_ge (a % n + (b - a)) n with hlt | hge
  · rw [Nat.mod_eq_of_lt hlt] at h
    omega
  · have h2 : (a % n + (b - a)) % n = a % n + (b - a) - n := by
      rw [Nat.mod_eq_sub_mod hge]
      exact Nat.mod_eq_of_lt (by omega)
    rw [h2] at h
    omega

/-- A successful send preserves the channel invariant. -/
theorem inv_sendCall (s : ChannelState) (x : Tensor) (s' : ChannelState)
    (hInv : Inv s) (h : sendCall s x = SendResult.ok s') : Inv s' := by
  obtain ⟨h1, h2, h3, h4, h5, h6, h7⟩ := hInv
  unfold sendCall at h
  split at h
  · cases h
  · split at h
    · cases h
    · rename_i hshape hperm
      cases h
      have hpos : 0 < s.permits := Nat.pos_of_ne_zero hperm
      have hnpos : 0 < s.size := by omega
      have hRS : s.recvL.length ≤ s.sentL.length := by omega
      have hgap : s.sentL.length - s.recvL.length < s.size := by omega
      refine ⟨?_, ?_, ?_, ?_, ?_, ?_, ?_⟩
      · simpa [List.length_set] using h1
      · dsimp only
        simp only [List.length_append, List.length_cons, List.length_nil]
        rw [h2, mod_add_one_mod]
      · exact h3
      · dsimp only
        omega
      · dsimp only
        simp only [List.length_append, List.length_cons, List.length_nil]
        omega
      · dsimp only
        rw [List.take_append_eq_append_take]
        have hz : s.recvL.length - s.sentL.length = 0 := by omega
        rw [hz, List.take_zero, List.append_nil]
        exact h6
      · intro i hiR hiS
        dsimp only at hiR hiS ⊢
        simp only [List.length_append, List.length_cons, List.length_nil] at hiS
        rcases Nat.lt_or_ge i s.sentL.length with hlt | hge
        · have hne : s.sendIdx ≠ i % s.size := by
            rw [h2]
            exact (mod_ne_of_between i s.sentL.length s.size hlt (by omega)).symm
          simp only [List.getD_eq_getElem?_getD]
          rw [List.getElem?_set_ne hne, List.getElem?_append_left hlt]
          have hgoal := h7 i hiR hlt
          simpa [List.getD_eq_getElem?_getD] using hgoal
        · have hieq : i = s.sentL.length := by omega
          have hidx : i % s.size = s.sendIdx := by rw [h2, hieq]
          have hblt : s.sendIdx < s.buf.length := by
            rw [h1, h2]
            exact Nat.mod_lt _ hnpos
          simp only [List.getD_eq_getElem?_getD]
          rw [hidx, hieq, List.getElem?_set_self hblt, List.getElem?_concat_length]

/-- A successful recv preserves the channel invariant. -/
theorem inv_recvCall (s : ChannelState) (t : Tensor) (s' : ChannelState)
    (hInv : Inv s) (h : recvCall s = some (t, s')) : Inv s' := by
  obtain ⟨h1, h2, h3, h4, h5, h6, h7⟩ := hInv
  unfold recvCall at h
  split at h
  · cases h
  · rename_i hq
    simp only [Option.some.injEq, Prod.mk.injEq] at h
    obtain ⟨ht, hs⟩ := h
    subst hs
    have hql : 0 < s.queueLen := Nat.pos_of_ne_zero hq
    have hRS : s.recvL.length < s.sentL.length := by omega
    have hnpos : 0 < s.size := by omega
    have hv : s.buf.getD s.recvIdx tZ = s.sentL.getD s.recvL.length tZ := by
      rw [h3]
      exact h7 s.recvL.length (Nat.le_refl _) hRS
    refine ⟨h1, h2, ?_, ?_, ?_, ?_, ?_⟩
    · dsimp only
      simp only [List.length_append, List.length_cons, List.length_nil]
      rw [h3, mod_add_one_mod]
    · dsimp only
      omega
    · dsimp only
      simp only [List.length_append, List.length_cons, List.length_nil]
      omega
    · dsimp only
      have hS : s.sentL[s.recvL.length]?.toList = [s.sentL.getD s.recvL.length tZ] := by
        simp [List.getElem?_eq_getElem hRS, List.getD_eq_getElem?_getD]
      rw [hv, List.length_append, List.length_cons, List.length_nil,
          List.take_succ, hS, ← h6]
    · intro i hiR hiS
      dsimp only at hiR hiS ⊢
      simp only [List.length_append, List.length_cons, List.length_nil] at hiR
      exact h7 i (by omega) hiS

/-- One req-drain iteration preserves the channel invariant. -/
theorem inv_reqDrain (s s' : ChannelState) (hInv : Inv s)
    (h : reqDrainFn s = some s') : Inv s' := by
  obtain ⟨h1, h2, h3, h4, h5, h6, h7⟩ := hInv
  unfold reqDrainFn at h
  split at h
  · cases h
  · rename_i hr
    cases h
    exact ⟨h1, h2, h3, by dsimp only; omega, by dsimp only; omega, h6, h7⟩

/-- One ack-drain iteration preserves the channel invariant. -/
theorem inv_ackDrain (s s' : ChannelState) (hInv : Inv s)
    (h : ackDrainFn s = some s') : Inv s' := by
  obtain ⟨h1, h2, h3, h4, h5, h6, h7⟩ := hInv
  unfold ackDrainFn at h
  split at h
  · cases h
  · rename_i ha
    cases h
    exact ⟨h1, h2, h3, by dsimp only; omega, by dsimp only; omega, h6, h7⟩

/-- Every atomic channel step preserves the channel invariant. -/
theorem inv_step (s : ChannelState) (l : Label) (s' : ChannelState)
    (hInv : Inv s) (h : stepFn s l = some s') : Inv s' := by
  cases l with
  | send x =>
    simp only [stepFn] at h
    cases hsc : sendCall s x with
    | error s2 => rw [hsc] at h; cases h
    | blocked s2 => rw [hsc] at h; cases h
    | ok s2 =>
      rw [hsc] at h
      cases h
      exact inv_sendCall s x _ hInv hsc
  | reqDrain => exact inv_reqDrain s s' hInv h
  | recv =>
    simp only [stepFn] at h
    cases hrc : recvCall s with
    | none => rw [hrc] at h; cases h
    | some p =>
      rw [hrc] at h
      cases h
      exact inv_recvCall s p.1 p.2 hInv (by rw [hrc])
  | ackDrain => exact inv_ackDrain s s' hInv h

/-- Running any label list preserves the channel invariant. -/
theorem run_inv (tr : List Label) (s s' : ChannelState) (hInv : Inv s)
    (h : run s tr = some s') : Inv s' := by
  induction tr generalizing s with
  | nil =>
    unfold run at h
    cases h
    exact hInv
  | cons l ls ih =>
    unfold run at h
    cases hst : stepFn s l with
    | none => rw [hst] at h; cases h
    | some s1 =>
      rw [hst] at h
      exact ih s1 (inv_step s l s1 hInv hst) h

/-- Every state reachable from a freshly started channel satisfies the
channel invariant. -/
theorem reach_inv (shape : List Nat) (dtype : DType) (size : Nat)
    (tr : List Label) (s : ChannelState)
    (h : run (ChannelState.started shape dtype size) tr = some s) : Inv s :=
  run_inv tr _ s (inv_started shape dtype size) h

/-- Any step other than a recv leaves the value seen by peek unchanged and
keeps the token queue non-empty. -/
theorem peek_step_ne_recv (s : ChannelState) (l : Label) (s' : ChannelState)
    (hInv : Inv s) (hq : 0 < s.queueLen) (hl : l ≠ Label.recv)
    (h : stepFn s l = some s') : peekCall s' = peekCall s ∧ 0 < s'.queueLen := by
  cases l with
  | send x =>
    simp only [stepFn] at h
    cases hsc : sendCall s x with
    | error s2 => rw [hsc] at h; cases h
    | blocked s2 => rw [hsc] at h; cases h
    | ok s2 =>
      rw [hsc] at h
      cases h
      obtain ⟨h1, h2, h3, h4, h5, h6, h7⟩ := hInv
      unfold sendCall at hsc
      split at hsc
      · cases hsc
      · split at hsc
        · cases hsc
        · rename_i hshape hperm
          cases hsc
          have hql : s.queueLen ≠ 0 := by omega
          have hRS : s.recvL.length < s.sentL.length := by omega
          have hgap : s.sentL.length - s.recvL.length < s.size := by omega
          have hne : s.sendIdx ≠ s.recvIdx := by
            rw [h2, h3]
            exact (mod_ne_of_between s.recvL.length s.sentL.length s.size hRS
              hgap).symm
          constructor
          · unfold peekCall
            dsimp only
            rw [if_neg hql, if_neg hql]
            simp only [List.getD_eq_getElem?_getD]
            rw [List.getElem?_set_ne hne]
          · dsimp only
            omega
  | reqDrain =>
    simp only [stepFn] at h
    unfold reqDrainFn at h
    split at h
    · cases h
    · cases h
      constructor
      · unfold peekCall
        dsimp only
        rw [if_neg (by omega), if_neg (by omega)]
      · dsimp only
        omega
  | recv => exact absurd rfl hl
  | ackDrain =>
    simp only [stepFn] at h
    unfold ackDrainFn at h
    split at h
    · cases h
    · cases h
      exact ⟨rfl, hq⟩

/-- Running any recv-free label list leaves the value seen by peek
unchanged, keeps the token queue non-empty, and preserves the invariant. -/
theorem peek_run_no_recv (tr : List Label) (s s' : ChannelState)
    (hInv : Inv s) (hq : 0 < s.queueLen) (hno : Label.recv ∉ tr)
    (h : run s tr = some s') :
    peekCall s' = peekCall s ∧ 0 < s'.queueLen ∧ Inv s' := by
  induction tr generalizing s with
  | nil =>
    unfold run at h
    cases h
    exact ⟨rfl, hq, hInv⟩
  | cons l ls ih =>
    unfold run at h
    cases hst : stepFn s l with
    | none => rw [hst] at h; cases h
    | some s1 =>
      rw [hst] at h
      have hlne : l ≠ Label.recv := by
        intro he
        subst he
        exact hno (List.Mem.head ls)
      obtain ⟨hp1, hq1⟩ := peek_step_ne_recv s l s1 hInv hq hlne hst
      have hInv1 := inv_step s l s1 hInv hst
      obtain ⟨hp2, hq2, hInv2⟩ :=
        ih s1 hInv1 hq1 (fun hm => hno (List.mem_cons_of_mem l hm)) h
      exact ⟨hp2.trans hp1, hq2, hInv2⟩

/-! ## Channel claim theorems -/

/-- C1: FIFO preservation.  In every state reachable from a freshly
started channel by any interleaving of sends, drains and recvs, the i-th
successful recv returned a tensor equal to the i-th tensor sent. -/
theorem c1_fifo (shape : List Nat) (dtype : DType) (size : Nat)
    (tr : List Label) (s : ChannelState)
    (h : run (ChannelState.started shape dtype size) tr = some s)
    (i : Nat) (hi : i < s.recvL.length) :
    s.recvL.getD i tZ = s.sentL.getD i tZ := by
  obtain ⟨h1, h2, h3, h4, h5, h6, h7⟩ := reach_inv shape dtype size tr s h
  conv_lhs => rw [h6]
  simp only [List.getD_eq_getElem?_getD]
  rw [List.getElem?_take_of_lt hi]

/-- Witness dtype for concrete runs. -/
def dW : DType := { id := 1, itemsize := 4 }

/-- Witness tensor A. -/
def tA : Tensor := { shape := [1], dtype := dW, data := [7] }

/-- Witness tensor B. -/
def tB : Tensor := { shape := [1], dtype := dW, data := [8] }

/-- Concrete trace for the C1 witness: two round trips on a channel of
capacity two. -/
def trC1 : List Label :=
  [Label.send tA, Label.reqDrain, Label.recv,
   Label.send tB, Label.reqDrain, Label.recv]

/-- Final state of the C1 witness trace. -/
def sC1 : ChannelState :=
  { size := 2, shape := [1], dtype := dW, buf := [tA, tB]
    sendIdx := 0, recvIdx := 0, permits := 0, req := 0, queueLen := 0
    ack := 2, sentL := [tA, tB], recvL := [tA, tB] }

theorem c1_fifo_witness :
    (run (ChannelState.started [1] dW 2) trC1 = some sC1) ∧
    1 < sC1.recvL.length ∧
    sC1.recvL.getD 1 tZ = sC1.sentL.getD 1 tZ :=
  ⟨by decide, by decide, c1_fifo [1] dW 2 trC1 sC1 (by decide) 1 (by decide)⟩

/-- C3: capacity invariant and back-pressure.  In every reachable state
the available permits plus in-transit req units plus queued tokens plus
in-transit ack units equal the capacity; after size sends and no recv the
sender's probe is false and a well-shaped send blocks; and a recv followed
by one ack-drain iteration re-enables exactly one permit. -/
theorem c3_capacity (shape : List Nat) (dtype : DType) (size : Nat)
    (tr : List Label) (s : ChannelState)
    (h : run (ChannelState.started shape dtype size) tr = some s) :
    s.permits + s.req + s.queueLen + s.ack = s.size ∧
    (s.recvL = [] → s.sentL.length = s.size →
      CspSendPort.probe s = false ∧
      ∀ x : Tensor, x.shape = s.shape → sendCall s x = SendResult.blocked s) ∧
    (∀ t s' s'', recvCall s = some (t, s') → ackDrainFn s' = some s'' →
      s''.permits = s.permits + 1) := by
  obtain ⟨h1, h2, h3, h4, h5, h6, h7⟩ := reach_inv shape dtype size tr s h
  refine ⟨h4, ?_, ?_⟩
  · intro hR hS
    have hR0 : s.recvL.length = 0 := by rw [hR]; rfl
    have hperm0 : s.permits = 0 := by omega
    constructor
    · simp [CspSendPort.probe, hperm0]
    · intro x hx
      simp [sendCall, hx, hperm0]
  · intro t s' s'' hrc had
    unfold recvCall at hrc
    split at hrc
    · cases hrc
    · simp only [Option.some.injEq, Prod.mk.injEq] at hrc
      obtain ⟨ht, hs⟩ := hrc
      subst hs
      unfold ackDrainFn at had
      split at had
      · cases had
      · cases had
        rfl

/-- Final state of the C3 witness trace: one send on a capacity-one
channel. -/
def sC3 : ChannelState :=
  { size := 1, shape := [1], dtype := dW, buf := [tA]
    sendIdx := 0, recvIdx := 0, permits := 0, req := 1, queueLen := 0
    ack := 0, sentL := [tA], recvL := [] }

theorem c3_capacity_witness :
    (run (ChannelState.started [1] dW 1) [Label.send tA] = some sC3) ∧
    sC3.permits + sC3.req + sC3.queueLen + sC3.ack = sC3.size ∧
    CspSendPort.probe sC3 = false :=
  ⟨by decide,
   (c3_capacity [1] dW 1 [Label.send tA] sC3 (by decide)).1,
   ((c3_capacity [1] dW 1 [Label.send tA] sC3 (by decide)).2.1 (by decide)
     (by decide)).1⟩

/-- C4: peek idempotence.  With a token available, peek returns the tensor
in slot recvIdx without any state change; its value is unchanged by any
recv-free activity; and the next recv returns the same tensor. -/
theorem c4_peek (shape : List Nat) (dtype : DType) (size : Nat)
    (tr : List Label) (s : ChannelState)
    (h : run (ChannelState.started shape dtype size) tr = some s)
    (hq : 0 < s.queueLen)
    (tr' : List Label) (s' : ChannelState)
    (hno : Label.recv ∉ tr') (h' : run s tr' = some s') :
    peekCall s = some (s.buf.getD s.recvIdx tZ) ∧
    peekCall s' = peekCall s ∧
    (∀ t st, recvCall s' = some (t, st) → peekCall s = some t) := by
  have hInv := reach_inv shape dtype size tr s h
  obtain ⟨hp, hq', hInv'⟩ := peek_run_no_recv tr' s s' hInv hq hno h'
  refine ⟨?_, hp, ?_⟩
  · unfold peekCall
    rw [if_neg (by omega)]
  · intro t st hrc
    unfold recvCall at hrc
    split at hrc
    · cases hrc
    · simp only [Option.some.injEq, Prod.mk.injEq] at hrc
      obtain ⟨ht, hs⟩ := hrc
      rw [← hp]
      unfold peekCall
      rw [if_neg (by omega), ht]

/-- Trace for the C4 witness: one send drained into the queue. -/
def trC4 : List Label := [Label.send tA, Label.reqDrain]

/-- State of the C4 witness after trC4. -/
def sC4 : ChannelState :=
  { size := 2, shape := [1], dtype := dW, buf := [tA, tZ]
    sendIdx := 1, recvIdx := 0, permits := 1, req := 0, queueLen := 1
    ack := 0, sentL := [tA], recvL := [] }

/-- Recv-free continuation for the C4 witness: a second send drained. -/
def trC4b : List Label := [Label.send tB, Label.reqDrain]

/-- State of the C4 witness after trC4 and trC4b. -/
def sC4b : ChannelState :=
  { size := 2, shape := [1], dtype := dW, buf := [tA, tB]
    sendIdx := 0, recvIdx := 0, permits := 0, req := 0, queueLen := 2
    ack := 0, sentL := [tA, tB], recvL := [] }

theorem c4_peek_witness :
    (run (ChannelState.started [1] dW 2) trC4 = some sC4) ∧
    0 < sC4.queueLen ∧ (Label.recv ∉ trC4b) ∧ (run sC4 trC4b = some sC4b) ∧
    peekCall sC4b = peekCall sC4 :=
  ⟨by decide, by decide, by decide, by decide,
   (c4_peek [1] dW 2 trC4 sC4 (by decide) (by decide) trC4b sC4b (by decide)
     (by decide)).2.1⟩

/-! ## CspSelector (pypychannel.py lines 276-310)

One select call on a list of (port, action) pairs.  Per pair we record the
outcome of probing the port (probing a port can itself raise, for example
on an unstarted port), the outcome of the nullary action, and the port's
observer slot.  The selector's changed callback is an opaque tag.  The
source installs the callback on every listed port, scans the pairs in
list order, and on the first ready port clears every observer before
invoking the action; a scan finding no ready port waits on the condition
variable. -/

deriving instance DecidableEq for Except

/-- One (port, action) pair as select sees it. -/
structure SelEntry where
  probe : Except String Bool
  action : Except String Nat
  observer : Option Nat
deriving Repr, DecidableEq

/-- Default entry used only as a getD fallback. -/
def dE : SelEntry :=
  { probe := Except.ok false, action := Except.ok 0, observer := none }

/-- CspSelector._set_observer (lines 289-291): unconditionally assign the
given observer to every listed port. -/
def setObserver (entries : List SelEntry) (ob : Option Nat) : List SelEntry :=
  entries.map (fun e => { e with observer := ob })

/-- Outcome of one select call: the action's value, a propagated
exception, or blocking on the condition variable, each with the final
observer state of the listed ports. -/
inductive SelOutcome where
  | ok (v : Nat) (entries : List SelEntry)
  | err (e : String) (entries : List SelEntry)
  | blocked (entries : List SelEntry)
deriving Repr, DecidableEq

/-- The port list attached to a select outcome. -/
def SelOutcome.entries : SelOutcome → List SelEntry
  | .ok _ es => es
  | .err _ es => es
  | .blocked es => es

/-- The outcome of running a ready pair's action after the observers were
cleared: the value on normal return, the propagated exception otherwise;
the observers are cleared either way because clearing precedes the call. -/
def actOutcome (cleared : List SelEntry) : Except String Nat → SelOutcome
  | .ok v => .ok v cleared
  | .error ex => .err ex cleared

/-- The scan loop of select over the remaining pairs, with all naming the
full installed list: the first pair whose probe is true clears every
observer and then runs its action; a probe exception propagates with the
observers still installed; an exhausted scan waits on the condition
variable with the observers still installed. -/
def scanFirst (all : List SelEntry) : List SelEntry → SelOutcome
  | [] => .blocked all
  | e :: rest =>
    match e.probe with
    | .error ex => .err ex all
    | .ok true => actOutcome (setObserver all none) e.action
    | .ok false => scanFirst all rest

/-- CspSelector.select (lines 293-310), one pass: install the changed
callback as every listed port's observer, then scan the pairs in the
order given. -/
def select (chg : Nat) (entries : List SelEntry) : SelOutcome :=
  scanFirst (setObserver entries (some chg)) (setObserver entries (some chg))

/-- setObserver preserves each entry's probe field. -/
theorem setObserver_getD_probe (entries : List SelEntry) (ob : Option Nat)
    (k : Nat) (hk : k < entries.length) :
    ((setObserver entries ob).getD k dE).probe = (entries.getD k dE).probe := by
  induction entries generalizing k with
  | nil => simp at hk
  | cons e rest ih =>
    cases k with
    | zero => rfl
    | succ n =>
      simp only [setObserver, List.map_cons, List.getD_cons_succ]
      exact ih n (Nat.lt_of_succ_lt_succ hk)

/-- setObserver preserves each entry's action field. -/
theorem setObserver_getD_action (entries : List SelEntry) (ob : Option Nat)
    (k : Nat) (hk : k < entries.length) :
    ((setObserver entries ob).getD k dE).action =
      (entries.getD k dE).action := by
  induction entries generalizing k with
  | nil => simp at hk
  | cons e rest ih =>
    cases k with
    | zero => rfl
    | succ n =>
      simp only [setObserver, List.map_cons, List.getD_cons_succ]
      exact ih n (Nat.lt_of_succ_lt_succ hk)

/-- Every member of a cleared list has observer none. -/
theorem mem_setObserver_none (l : List SelEntry) (e : SelEntry)
    (h : e ∈ setObserver l none) : e.observer = none := by
  unfold setObserver at h
  obtain ⟨a, _, rfl⟩ := List.mem_map.mp h
  rfl

/-- Every member of an installed list has the installed observer. -/
theorem mem_setObserver_some (l : List SelEntry) (ob : Nat) (e : SelEntry)
    (h : e ∈ setObserver l (some ob)) : e.observer = some ob := by
  unfold setObserver at h
  obtain ⟨a, _, rfl⟩ := List.mem_map.mp h
  rfl

/-- The scan stops at the earliest listed ready pair and returns its
action outcome over the cleared list, provided every earlier probe is
false. -/
theorem scanFirst_ready (all : List SelEntry) (l : List SelEntry) (i : Nat)
    (hi : i < l.length) (hready : (l.getD i dE).probe = Except.ok true)
    (hbefore : ∀ j, j < i → (l.getD j dE).probe = Except.ok false) :
    scanFirst all l = actOutcome (setObserver all none) (l.getD i dE).action := by
  induction l generalizing i with
  | nil => simp at hi
  | cons e rest ih =>
    cases i with
    | zero =>
      rw [List.getD_cons_zero] at hready
      rw [List.getD_cons_zero]
      unfold scanFirst
      rw [hready]
    | succ n =>
      have hfalse : e.probe = Except.ok false := by
        have h0 := hbefore 0 (Nat.succ_pos n)
        rwa [List.getD_cons_zero] at h0
      rw [List.getD_cons_succ]
      unfold scanFirst
      rw [hfalse]
      exact ih n (Nat.lt_of_succ_lt_succ (by simpa using hi))
        (by rwa [List.getD_cons_succ] at hready)
        (fun j hj => by
          have hb := hbefore (j + 1) (Nat.succ_lt_succ hj)
          rwa [List.getD_cons_succ] at hb)

/-- select with an earliest ready pair at index i returns that pair's
action outcome over the cleared installed list, without blocking. -/
theorem select_ready (chg : Nat) (entries : List SelEntry) (i : Nat)
    (hi : i < entries.length)
    (hready : (entries.getD i dE).probe = Except.ok true)
    (hbefore : ∀ j, j < i → (entries.getD j dE).probe = Except.ok false) :
    select chg entries =
      actOutcome (setObserver (setObserver entries (some chg)) none)
        ((entries.getD i dE).action) := by
  unfold select
  have hlen : (setObserver entries (some chg)).length = entries.length := by
    simp [setObserver]
  rw [scanFirst_ready (setObserver entries (some chg))
      (setObserver entries (some chg)) i (by rwa [hlen])
      (by rwa [setObserver_getD_probe entries (some chg) i hi])
      (fun j hj => by
        rw [setObserver_getD_probe entries (some chg) j (Nat.lt_trans hj hi)]
        exact hbefore j hj)]
  rw [setObserver_getD_action entries (some chg) i hi]

/-- A select returning a value carries the cleared installed list. -/
theorem scanFirst_ok_entries (all : List SelEntry) (l : List SelEntry)
    (v : Nat) (es : List SelEntry) (h : scanFirst all l = SelOutcome.ok v es) :
    es = setObserver all none := by
  induction l with
  | nil =>
    unfold scanFirst at h
    cases h
  | cons e rest ih =>
    unfold scanFirst at h
    cases hp : e.probe with
    | error ex => rw [hp] at h; cases h
    | ok b =>
      rw [hp] at h
      cases b with
      | true =>
        unfold actOutcome at h
        cases ha : e.action with
        | ok w => rw [ha] at h; cases h; rfl
        | error ex => rw [ha] at h; cases h
      | false => exact ih h

/-- The scan's outcome carries either the list it was given (installed
observers) or that list cleared. -/
theorem scanFirst_entries_cases (all : List SelEntry) (l : List SelEntry) :
    (scanFirst all l).entries = all ∨
    (scanFirst all l).entries = setObserver all none := by
  induction l with
  | nil => exact Or.inl rfl
  | cons e rest ih =>
    unfold scanFirst
    cases hp : e.probe with
    | error ex => exact Or.inl rfl
    | ok b =>
      cases b with
      | true =>
        cases ha : e.action with
        | ok w => exact Or.inr rfl
        | error ex => exact Or.inr rfl
      | false => exact ih

/-! ## Selector claim theorems -/

/-- C5: selector ordering.  select scans the pairs in the order given; if
the earliest ready pair is at index i (all earlier probes false), select
returns that pair's action outcome without blocking. -/
theorem c5_select_order (chg : Nat) (entries : List SelEntry) (i : Nat)
    (hi : i < entries.length)
    (hready : (entries.getD i dE).probe = Except.ok true)
    (hbefore : ∀ j, j < i → (entries.getD j dE).probe = Except.ok false) :
    select chg entries =
      actOutcome (setObserver (setObserver entries (some chg)) none)
        ((entries.getD i dE).action) :=
  select_ready chg entries i hi hready hbefore

/-- Not-ready entry with a pre-installed observer, for witnesses. -/
def eF : SelEntry :=
  { probe := Except.ok false, action := Except.ok 1, observer := some 9 }

/-- Ready entry, for witnesses. -/
def eT : SelEntry :=
  { probe := Except.ok true, action := Except.ok 2, observer := none }

theorem c5_select_order_witness :
    (1 < [eF, eT].length) ∧
    (([eF, eT].getD 1 dE).probe = Except.ok true) ∧
    select 5 [eF, eT] =
      actOutcome (setObserver (setObserver [eF, eT] (some 5)) none)
        (([eF, eT].getD 1 dE).action) :=
  ⟨by decide, by decide,
   c5_select_order 5 [eF, eT] 1 (by decide) (by decide) (by decide)⟩

/-- Entry whose probe raises, for the C6 counterexample. -/
def eBoom : SelEntry :=
  { probe := Except.error "boom", action := Except.ok 0, observer := none }

/-- C6 counterexample: an exception propagating out of a port's probe
leaves the observer select installed still in place — the exit does not
clear the listed ports' observers, contradicting the claim that every
exit (including an exception from probe) clears them. -/
theorem c6_counterexample :
    select 1 [eBoom] =
      SelOutcome.err "boom"
        [{ probe := Except.error "boom", action := Except.ok 0,
           observer := some 1 }] ∧
    ((select 1 [eBoom]).entries.all fun e => e.observer.isNone) = false := by
  decide

/-- C6 (amended): exits that follow a ready probe have every observer
cleared — the clearing precedes the action call, so this covers both a
value-returning exit and an exception propagating from the action; but an
exception from a probe (or a wait that never finds a ready port) leaves
the installed observers in place. -/
theorem c6_observer_clear (chg : Nat) (entries : List SelEntry) :
    (∀ v es, select chg entries = SelOutcome.ok v es →
      ∀ e ∈ es, e.observer = none) ∧
    (∀ i, i < entries.length → (entries.getD i dE).probe = Except.ok true →
      (∀ j, j < i → (entries.getD j dE).probe = Except.ok false) →
      ∀ ex es, select chg entries = SelOutcome.err ex es →
        ∀ e ∈ es, e.observer = none) := by
  constructor
  · intro v es hsel e he
    unfold select at hsel
    have hes := scanFirst_ok_entries _ _ v es hsel
    subst hes
    exact mem_setObserver_none _ e he
  · intro i hi hready hbefore ex es hsel e he
    rw [select_ready chg entries i hi hready hbefore] at hsel
    cases ha : (entries.getD i dE).action with
    | ok w =>
      rw [ha] at hsel
      cases hsel
    | error ex' =>
      rw [ha] at hsel
      unfold actOutcome at hsel
      cases hsel
      exact mem_setObserver_none _ e he

theorem c6_observer_clear_witness :
    (select 5 [eF, eT] =
      SelOutcome.ok 2 (setObserver (setObserver [eF, eT] (some 5)) none)) ∧
    (∀ e ∈ setObserver (setObserver [eF, eT] (some 5)) none,
      e.observer = none) :=
  ⟨by decide,
   fun e he => (c6_observer_clear 5 [eF, eT]).1 2
     (setObserver (setObserver [eF, eT] (some 5)) none) (by decide) e he⟩

/-- C10: each port holds exactly one observer slot; select overwrites it
on every listed port at entry and clears it on every listed port once a
ready port is found, so whatever observer a port held before select is
gone in the outcome: every outcome observer is either the selector's
callback or none, and a value-returning outcome has them all cleared. -/
theorem c10_observer_overwrite (chg : Nat) (entries : List SelEntry) :
    (∀ e ∈ (select chg entries).entries,
      e.observer = some chg ∨ e.observer = none) ∧
    (∀ v es, select chg entries = SelOutcome.ok v es →
      ∀ e ∈ es, e.observer = none) := by
  constructor
  · intro e he
    unfold select at he
    rcases scanFirst_entries_cases (setObserver entries (some chg))
        (setObserver entries (some chg)) with hc | hc
    · rw [hc] at he
      exact Or.inl (mem_setObserver_some entries chg e he)
    · rw [hc] at he
      exact Or.inr (mem_setObserver_none _ e he)
  · intro v es hsel e he
    unfold select at hsel
    have hes := scanFirst_ok_entries _ _ v es hsel
    subst hes
    exact mem_setObserver_none _ e he

theorem c10_observer_overwrite_witness :
    ((select 3 [eF]).entries =
      [{ probe := Except.ok false, action := Except.ok 1,
         observer := some 3 }]) ∧
    ({ probe := Except.ok false, action := Except.ok 1,
       observer := some 3 : SelEntry }.observer = some 3 ∨
     { probe := Except.ok false, action := Except.ok 1,
       observer := some 3 : SelEntry }.observer = none) :=
  ⟨by decide,
   (c10_observer_overwrite 3 [eF]).1
     { probe := Except.ok false, action := Except.ok 1, observer := some 3 }
     (by decide)⟩

/-! ## Send shape check claim theorems (C2) -/

/-- Tensor with the channel's shape but a different dtype. -/
def tD : Tensor := { shape := [1], dtype := { id := 2, itemsize := 8 }, data := [3] }

/-- The state a dtype-mismatched send leaves behind. -/
def sC2ok : ChannelState :=
  { size := 1, shape := [1], dtype := dW, buf := [tD]
    sendIdx := 0, recvIdx := 0, permits := 0, req := 1, queueLen := 0
    ack := 0, sentL := [tD], recvL := [] }

/-- C2 counterexample: a send whose data dtype disagrees with the channel
dtype (shape agreeing) does not fail — the source checks only the shape —
and it proceeds through the semaphore operations with full side effects. -/
theorem c2_counterexample :
    tD.dtype ≠ (ChannelState.started [1] dW 1).dtype ∧
    tD.shape = (ChannelState.started [1] dW 1).shape ∧
    sendCall (ChannelState.started [1] dW 1) tD = SendResult.ok sC2ok := by
  decide

/-- C2 (amended): a send whose data shape differs from the channel shape
fails with the shape assertion before any semaphore operation and with no
side effects: the error carries the unchanged pre-state, so the sender's
idx, permits, req count and probe value are all as before the call.  The
dtype is never examined. -/
theorem c2_shape_error (s : ChannelState) (data : Tensor)
    (hsh : data.shape ≠ s.shape) :
    sendCall s data = SendResult.error s := by
  unfold sendCall
  rw [if_pos hsh]

/-- Tensor of the wrong shape for the C2 witness. -/
def tE : Tensor := { shape := [2], dtype := dW, data := [3, 4] }

theorem c2_shape_error_witness :
    (tE.shape ≠ (ChannelState.started [1] dW 1).shape) ∧
    sendCall (ChannelState.started [1] dW 1) tE =
      SendResult.error (ChannelState.started [1] dW 1) :=
  ⟨by decide, c2_shape_error (ChannelState.started [1] dW 1) tE (by decide)⟩

/-! ## RecvQueue claim theorems (C7) -/

/-- C7 counterexample: with block false and a negative timeout, get on a
non-empty queue returns the head normally — the negative timeout is never
examined, so no argument error is raised, contradicting the claim that
every call with a negative timeout fails with an argument error. -/
theorem c7_counterexample :
    CspRecvQueue.get [5] false (some (-1)) false = GetOutcome.ok 5 [] ∧
    CspRecvQueue.get [5] false (some (-1)) false ≠
      GetOutcome.badTimeout [5] := by
  decide

/-- C7 (amended): with block false the timeout is ignored and an empty
queue fails immediately with the empty error; with block true and no
timeout an empty queue waits; with block true a negative timeout is an
argument error (regardless of queue contents); with block true and a
non-negative timeout an empty queue fails with the empty error on
expiry. -/
theorem c7_get (q : List Nat) (t : Int) (tmo : Option Int) (pk : Bool) :
    (q = [] → CspRecvQueue.get q false tmo pk = GetOutcome.emptyErr q) ∧
    (q = [] → CspRecvQueue.get q true none pk = GetOutcome.blocked q) ∧
    (t < 0 → CspRecvQueue.get q true (some t) pk = GetOutcome.badTimeout q) ∧
    (0 ≤ t → q = [] →
      CspRecvQueue.get q true (some t) pk = GetOutcome.emptyErr q) := by
  refine ⟨?_, ?_, ?_, ?_⟩
  · intro h
    subst h
    rfl
  · intro h
    subst h
    rfl
  · intro h
    simp [CspRecvQueue.get, h]
  · intro h1 h2
    subst h2
    have hneg : ¬t < 0 := by omega
    simp [CspRecvQueue.get, hneg]

theorem c7_get_witness :
    ((-2 : Int) < 0) ∧
    CspRecvQueue.get ([] : List Nat) true (some (-2)) false =
      GetOutcome.badTimeout [] :=
  ⟨by decide, (c7_get [] (-2) none false).2.2.1 (by decide)⟩

/-! ## Lifecycle claim theorems (C8) -/

/-- A concrete unstarted send port. -/
def p0 : SendPortL := SendPortL.new [1] dW 2

/-- A concrete unstarted recv port. -/
def r0 : RecvPortL := RecvPortL.new [1] dW 2

/-- C8 counterexample: start on an already-started port does not fail —
it returns normally, reinstalls a full permit semaphore and ring view,
and spawns a second drain thread — contradicting the claim that a second
start fails. -/
theorem c8_counterexample :
    SendPortL.startE (SendPortL.start p0) =
      Except.ok { shape := [1], dtype := dW, size := 2, semaphore := some 2,
                  arrayLen := 2, threads := 2, idx := 0 } := by
  decide

/-- C8 (amended): send and recv on a port whose start has not run fail
fast by dereferencing the unset semaphore or queue (an attribute error,
not a designed usage check); start on an already-started port does not
fail — it silently reinstalls state and spawns one more drain thread. -/
theorem c8_usage (p : SendPortL) (r : RecvPortL) (d : Tensor)
    (hp : p.semaphore = none) (hd : d.shape = p.shape) (hr : r.queue = none) :
    SendPortL.send p d = LSendRes.attrErr ∧
    RecvPortL.recv r = LRecvRes.attrErr ∧
    SendPortL.startE p.start = Except.ok p.start.start ∧
    p.start.start.threads = p.threads + 2 := by
  refine ⟨?_, ?_, rfl, rfl⟩
  · unfold SendPortL.send
    rw [if_neg (by simp [hd]), hp]
  · unfold RecvPortL.recv
    rw [hr]

theorem c8_usage_witness :
    (p0.semaphore = none) ∧
    SendPortL.send p0 tA = LSendRes.attrErr ∧
    RecvPortL.recv r0 = LRecvRes.attrErr :=
  ⟨by decide,
   (c8_usage p0 r0 tA (by decide) (by decide) (by decide)).1,
   (c8_usage p0 r0 tA (by decide) (by decide) (by decide)).2.1⟩

/-! ## Factory claim theorems (C9) -/

/-- C9 counterexample: constructing a channel with size zero over a
zero-element shape succeeds with nbytes zero — no construction-time
validation of size or nbytes exists, contradicting the claim that
size and nbytes are at least one and a mismatch is a construction
error. -/
theorem c9_counterexample :
    PyPyChannelM.new [0] dW 0 =
      { shmBytes := 0
        srcProto := { shape := [0], dtype := dW, nbytes := 0 }
        dstProto := { shape := [0], dtype := dW, nbytes := 0 }
        size := 0 } ∧
    ¬(1 ≤ (PyPyChannelM.new [0] dW 0).srcProto.nbytes) ∧
    ¬(1 ≤ (PyPyChannelM.new [0] dW 0).size) := by
  decide

/-- C9 (amended): the factory always computes nbytes as product(shape)
times the dtype item size, gives both ports one identical proto, and
requests nbytes times size bytes of shared memory; neither the factory
nor Proto validates size or nbytes, and construction never fails. -/
theorem c9_factory (shape : List Nat) (dtype : DType) (size : Nat) :
    (PyPyChannelM.new shape dtype size).srcProto.nbytes =
      listProd shape * dtype.itemsize ∧
    (PyPyChannelM.new shape dtype size).srcProto =
      (PyPyChannelM.new shape dtype size).dstProto ∧
    (PyPyChannelM.new shape dtype size).shmBytes =
      listProd shape * dtype.itemsize * size :=
  ⟨rfl, rfl, rfl⟩

end PyPyChannelModel
